import Mathlib

/-!
Verification of the "venta de garage" marketplace search/filter/featured flow.

Shallow embedding of the client flow implemented in
`venta-de-garage-web/src/components/ProductGrid.jsx` (filter state,
`hasActiveFilters`, `loadProducts`, featured recalculation, engagement
counters), `src/components/Header.jsx` (suggestion panel, `fetchSuggestions`,
`handleSearchSubmit`), `src/App.js` (`handleSearch`) and
`src/services/api.js` (`fetchProducts`, `incrementProductView`,
`incrementProductSearch`).

Conventions of the embedding:
- JavaScript strings become `String`; JS string truthiness (`!!s`) becomes
  `s ≠ ""` as a `Bool`.
- The `sellerIdFilter` prop holds either `null` or a number
  (`Number(sellerId)` in `App.handleSearch`), so it becomes `Option Int`;
  JS number truthiness (`!!n`, false exactly on `0` and `NaN` — `NaN` cannot
  arise here because the value comes from `Number` of a backend integer id)
  becomes `n ≠ 0`.
- Fallible network calls become `Except String` values supplied by an
  environment record, so a run of the flow is a pure function of the
  environment and the incoming component state.
-/

namespace VentaDeGarage

/-- A product record as consumed by `ProductGrid` (the fields the flow reads:
`id`, `searches`, `views`, `featured`). -/
structure Product where
  id : Nat
  searches : Nat
  views : Nat
  featured : Bool
  deriving Repr, DecidableEq

/-- The sidebar filter object of `ProductGrid` (`filters` state,
ProductGrid.jsx:25-33): every field is a string, `''` meaning unset. -/
structure Filters where
  category : String
  condition : String
  location : String
  priceMin : String
  priceMax : String
  endsIn : String
  deriving Repr, DecidableEq

/-- The default sidebar filter state (`initialFilters`, ProductGrid.jsx:25-32
with no category prop). -/
def initialFilters : Filters :=
  { category := "", condition := "", location := "", priceMin := "",
    priceMax := "", endsIn := "" }

/-- JS truthiness of a string: `!!s` is `true` iff `s` is non-empty. -/
def truthyStr (s : String) : Bool := s ≠ ""

/-- JS truthiness of the `sellerIdFilter` prop (`null` or a number):
`!!null = false`, `!!0 = false`, any other number is truthy. -/
def truthyOptInt (x : Option Int) : Bool :=
  match x with
  | none => false
  | some n => n ≠ 0

/-- Embeds `hasActiveFilters` (ProductGrid.jsx:69-77): the disjunction of the JS
truthiness of the search term, the six sidebar filters, the location-click
filter and the seller-id filter. -/
def hasActiveFilters (searchTerm : String) (f : Filters)
    (locationFilter : String) (sellerIdFilter : Option Int) : Bool :=
  truthyStr searchTerm ||
  truthyStr f.category ||
  truthyStr f.condition ||
  truthyStr f.location ||
  truthyStr f.priceMin ||
  truthyStr f.priceMax ||
  truthyStr f.endsIn ||
  truthyStr locationFilter ||
  truthyOptInt sellerIdFilter

/-- Embeds `isMainPage` (ProductGrid.jsx:83), which is the value sent as
`featured_only` (ProductGrid.jsx:91): the negation of `hasActiveFilters`. -/
def featuredOnly (searchTerm : String) (f : Filters)
    (locationFilter : String) (sellerIdFilter : Option Int) : Bool :=
  !(hasActiveFilters searchTerm f locationFilter sellerIdFilter)

/-- Modelled from the spec (section 3, Filter Request; section 4.1): a filter
dimension is "active" when it is set — a non-empty string for the text-valued
dimensions, a present (non-`null`) value for the seller-id dimension. This is
the spec-side notion used to compare against the code's `featured_only`. -/
def specAnyDimensionActive (searchTerm : String) (f : Filters)
    (locationFilter : String) (sellerIdFilter : Option Int) : Prop :=
  searchTerm ≠ "" ∨ f.category ≠ "" ∨ f.condition ≠ "" ∨ f.location ≠ "" ∨
  f.priceMin ≠ "" ∨ f.priceMax ≠ "" ∨ f.endsIn ≠ "" ∨
  locationFilter ≠ "" ∨ sellerIdFilter ≠ none

instance (searchTerm : String) (f : Filters) (locationFilter : String)
    (sellerIdFilter : Option Int) :
    Decidable (specAnyDimensionActive searchTerm f locationFilter sellerIdFilter) := by
  unfold specAnyDimensionActive; infer_instance

/-- The argument object passed to `fetchProducts`, after resolving the JS
object-spread overrides (api.js:3-16 parameter list). `seller_id` is `none`
when the key is absent or `undefined`. -/
structure QueryParams where
  searchTerm : String
  category : String
  condition : String
  location : String
  priceMin : String
  priceMax : String
  endsIn : String
  seller_id : Option Int
  featured_only : Bool
  page : Nat
  pageSize : Nat
  deriving Repr, DecidableEq

/-- The argument object of the primary fetch (ProductGrid.jsx:85-94), with the
spreads resolved left to right: the literal `location`/`seller_id` keys, then
`...filters` (which overrides `location` with `filters.location`), then the
conditional `...(locationFilter ? { location: locationFilter } : {})`.
The term is blanked when a location-click or seller-id filter is present. -/
def buildOriginalParams (searchTerm : String) (f : Filters)
    (locationFilter : String) (sellerIdFilter : Option Int)
    (isMainPage : Bool) (page pageSize : Nat) : QueryParams :=
  { searchTerm :=
      if truthyStr locationFilter || sellerIdFilter.isSome then "" else searchTerm
    category := f.category
    condition := f.condition
    location := if truthyStr locationFilter then locationFilter else f.location
    priceMin := f.priceMin
    priceMax := f.priceMax
    endsIn := f.endsIn
    seller_id := sellerIdFilter
    featured_only := isMainPage
    page := page
    pageSize := pageSize }

/-- The argument object of the refresh fetch issued after search-count
increments (ProductGrid.jsx:133-139): the raw `searchTerm` prop plus
`...filters` only — no `seller_id` key and no `locationFilter` override. -/
def buildRefetchParams (searchTerm : String) (f : Filters)
    (isMainPage : Bool) (page pageSize : Nat) : QueryParams :=
  { searchTerm := searchTerm
    category := f.category
    condition := f.condition
    location := f.location
    priceMin := f.priceMin
    priceMax := f.priceMax
    endsIn := f.endsIn
    seller_id := none
    featured_only := isMainPage
    page := page
    pageSize := pageSize }

/-! ### Featured recalculation (ProductGrid.jsx:99-119) -/

/-- The comparator `(a, b) => (b.searches || 0) - (a.searches || 0)` used with
`Array.prototype.sort` (ProductGrid.jsx:102), read as a boolean
"a may come before b" relation: it holds when `b.searches ≤ a.searches`,
giving a descending order by `searches`. -/
def searchesDescLe (a b : Product) : Bool := b.searches ≤ a.searches

/-- Embeds `[...data.items].sort((a, b) => (b.searches || 0) - (a.searches || 0))`
(ProductGrid.jsx:102). `Array.prototype.sort` is stable, so a stable merge
sort under the descending-by-`searches` relation. -/
def sortBySearchesDesc (items : List Product) : List Product :=
  items.mergeSort searchesDescLe

/-- The slice `sorted.slice(0, 6)` (ProductGrid.jsx:103): the top 6 of the
page after the descending sort. -/
def top6 (items : List Product) : List Product :=
  (sortBySearchesDesc items).take 6

/-- The slice `sorted.slice(6)` (ProductGrid.jsx:112): the rest of the page
after the descending sort. -/
def rest6 (items : List Product) : List Product :=
  (sortBySearchesDesc items).drop 6

/-- The sequence of `updateFeatured(id, flag)` mutations issued on the home
view (ProductGrid.jsx:106-116): `featured=true` for each of the top 6 that is
not already featured, then `featured=false` for each of the rest that is
currently featured, in page-sorted order. -/
def recalcMutations (items : List Product) : List (Nat × Bool) :=
  ((top6 items).filter (fun p => !p.featured)).map (fun p => (p.id, true)) ++
  ((rest6 items).filter (fun p => p.featured)).map (fun p => (p.id, false))

/-- The mutation sequence the grid issues as a function of `isMainPage`: the
recalculation runs only on the home view (ProductGrid.jsx:100, `if (isMainPage)`);
otherwise no featured mutation is issued. -/
def gridMutations (isMainPage : Bool) (items : List Product) : List (Nat × Bool) :=
  if isMainPage then recalcMutations items else []

/-- The store's semantics of `POST /products/{id}/featured` (spec section 6;
consumed through `updateFeatured`, ProductGrid.jsx:8-14): set the `featured`
flag of the listing with that id. -/
def applyMutation (store : List Product) (m : Nat × Bool) : List Product :=
  store.map (fun p => if p.id = m.1 then { p with featured := m.2 } else p)

/-- Applies a sequence of featured mutations to the store, in issue order. -/
def applyMutations (store : List Product) (ms : List (Nat × Bool)) : List Product :=
  ms.foldl applyMutation store

/-- The effect of a mutation sequence on a single listing: the per-element
function that `applyMutations` maps over the store. -/
def applyAll (ms : List (Nat × Bool)) (p : Product) : Product :=
  ms.foldl (fun q m => if q.id = m.1 then { q with featured := m.2 } else q) p

/-! ### Engagement counters (ProductGrid.jsx:121-153) -/

/-- The newly seen ids of a page against a session dedup set
(ProductGrid.jsx:124-126 and 146-148): the ids of the page items that are not
already in the stored list. -/
def newIdsAgainst (items : List Product) (seen : List Nat) : List Nat :=
  (items.map (fun p => p.id)).filter (fun id => !(seen.contains id))

/-- One run of the view-increment flow (ProductGrid.jsx:144-153) on a page,
assuming the increment calls succeed: returns the list of ids for which an
`incrementProductView` call is issued (one call per listed id, via
`Promise.all(newViewIds.map(...))`) and the updated session `viewedProducts`
list (`[...alreadyViewed, ...newViewIds]`, written only when at least one new
id exists). -/
def viewIncrementRun (items : List Product) (viewed : List Nat) :
    List Nat × List Nat :=
  let newViewIds := newIdsAgainst items viewed
  (newViewIds, if newViewIds.length > 0 then viewed ++ newViewIds else viewed)

/-! ### Header search submission and App filter state
(Header.jsx:179-194, App.js:83-90) -/

/-- An autocomplete suggestion (spec section 3): text, type
(`"ubicación"`, `"vendedor"`, or a product/category type), and the optional
seller id, already coerced to a number (`Number(extra.seller_id)`,
Header.jsx:189). -/
structure Suggestion where
  text : String
  type : String
  seller_id : Option Int
  deriving Repr, DecidableEq

/-- The part of the Header component state touched by a search submission
(Header.jsx:104-109, 179-185). -/
structure HeaderState where
  searchTerm : String
  recentSearches : List String
  showSuggestions : Bool
  selectedCategory : String
  deriving Repr, DecidableEq

/-- The search-related App state set by `handleSearch` (App.js:68-73). -/
structure AppSearchState where
  searchTerm : String
  originalSearchTerm : String
  selectedCategory : String
  suggestion : Option String
  locationFilter : String
  sellerIdFilter : Option Int
  deriving Repr, DecidableEq

/-- Embeds `App.handleSearch(term, category, location = '', sellerId = null)`
(App.js:83-90): the search term is blanked when a location or a non-null
seller id is supplied; the pending spelling suggestion is cleared; the
location-click and seller-id filters are overwritten. -/
def handleSearch (term category location : String) (sellerId : Option Int)
    (a : AppSearchState) : AppSearchState :=
  { a with
    searchTerm := if truthyStr location || sellerId.isSome then "" else term
    originalSearchTerm := term
    selectedCategory := category
    suggestion := none
    locationFilter := location
    sellerIdFilter := sellerId }

/-- The recent-searches update of `handleSearchSubmit` (Header.jsx:181):
`[term, ...recentSearches.filter(s => s !== term)].slice(0, 5)`. -/
def recentUpdate (term : String) (recent : List String) : List String :=
  (term :: recent.filter (fun s => s ≠ term)).take 5

/-- Embeds `Header.handleSearchSubmit(term, type, extra)` (Header.jsx:179-194)
together with the `App.handleSearch` call it makes: updates the recent
searches, the header input and panel visibility, and dispatches according to
the suggestion type (`'ubicación'` sets the location filter with an empty
term; `'vendedor'` sets the numeric seller-id filter with an empty term;
anything else searches the term itself). -/
def handleSearchSubmit (term : String) (type : Option String)
    (extraSellerId : Option Int) (h : HeaderState) (a : AppSearchState) :
    HeaderState × AppSearchState :=
  let hNext := { h with
    recentSearches := recentUpdate term h.recentSearches
    searchTerm := term
    showSuggestions := false }
  if type = some "ubicación" then
    (hNext, handleSearch "" h.selectedCategory term none a)
  else if type = some "vendedor" then
    (hNext, handleSearch "" h.selectedCategory "" extraSellerId a)
  else
    (hNext, handleSearch term h.selectedCategory "" none a)

/-- Clicking a suggestion in the panel (Header.jsx:294):
`handleSearchSubmit(suggestion.text, suggestion.type, suggestion)`. -/
def selectSuggestion (s : Suggestion) (h : HeaderState) (a : AppSearchState) :
    HeaderState × AppSearchState :=
  handleSearchSubmit s.text (some s.type) s.seller_id h a

/-! ### Suggestion panel (Header.jsx:140-163, 275) -/

/-- The Header state touched by a suggestion fetch (Header.jsx:105, 114-115)
plus a log of `console.error` messages; the Header has no error state for
suggestion fetches, so an error can only be logged. -/
structure SuggestState where
  suggestions : List Suggestion
  liveSuggestion : Option String
  loadingSuggestions : Bool
  log : List String
  deriving Repr, DecidableEq

/-- The response shape of `GET /search/suggestions` (spec section 6):
a suggestion list and an optional top spelling correction. -/
structure SuggestResponse where
  suggestions : List Suggestion
  suggestion : Option String
  deriving Repr, DecidableEq

/-- Embeds `fetchSuggestions(query)` (Header.jsx:140-163) as a transition on
the suggestion state, the network outcome supplied as an `Except`: queries
shorter than 2 characters clear the panel without fetching; a successful
fetch installs the returned list and the spelling correction
(`data.suggestion || null` turns an empty string into `null`); a failed fetch
only appends a `console.error` log entry, leaving the shown suggestions and
spelling correction as they were; the loading flag is always cleared. -/
def fetchSuggestionsStep (query : String) (st : SuggestState)
    (result : Except String SuggestResponse) : SuggestState :=
  if query.length < 2 then
    { st with suggestions := [], liveSuggestion := none,
              loadingSuggestions := false }
  else
    match result with
    | .ok d =>
        { st with
          suggestions := d.suggestions
          liveSuggestion :=
            match d.suggestion with
            | some s => if s = "" then none else some s
            | none => none
          loadingSuggestions := false }
    | .error e =>
        { st with loadingSuggestions := false, log := st.log ++ [e] }

/-- JS `String.prototype.toLowerCase()` on the character range this flow
handles: characterwise ASCII lowercasing of the string's characters. -/
def jsToLowerCase (s : String) : String := String.mk (s.data.map Char.toLower)

/-- The display condition of the "¿Quisiste decir ...?" spelling entry in the
panel (Header.jsx:275): `liveSuggestion && liveSuggestion !== searchTerm &&
!suggestions.some(s => s.text && s.text.toLowerCase() ===
liveSuggestion.toLowerCase())`. The first comparison against the term is
exact; only the comparison against the returned suggestions is
case-insensitive. -/
def showSpellingSuggestion (liveSuggestion : Option String)
    (searchTerm : String) (suggestions : List Suggestion) : Bool :=
  match liveSuggestion with
  | none => false
  | some ls =>
      ls ≠ "" && ls ≠ searchTerm &&
      !(suggestions.any (fun s =>
          s.text ≠ "" && jsToLowerCase s.text = jsToLowerCase ls))

/-- Modelled from the spec (section 4.1 failure/edge cases): the claimed
display condition — the pending spelling suggestion differs
case-insensitively from the current term and no returned suggestion's text
equals it case-insensitively. -/
def specShowSpelling (ls searchTerm : String)
    (suggestions : List Suggestion) : Prop :=
  jsToLowerCase ls ≠ jsToLowerCase searchTerm ∧
  ∀ s ∈ suggestions, jsToLowerCase s.text ≠ jsToLowerCase ls

instance (ls searchTerm : String) (suggestions : List Suggestion) :
    Decidable (specShowSpelling ls searchTerm suggestions) := by
  unfold specShowSpelling; infer_instance

/-! ### The load flow (ProductGrid.jsx:79-169) -/

/-- The response shape of `GET /products/` (api.js:42): `{ items, total }`. -/
structure Page where
  items : List Product
  total : Nat
  deriving Repr, DecidableEq

/-- The network environment of one `loadProducts` run: the outcome of the
primary `fetchProducts` call, of each `updateFeatured(id, flag)` call
(rejects only on network failure — `updateFeatured`, ProductGrid.jsx:8-14,
never checks `response.ok`), of each `incrementProductSearch(id)` and
`incrementProductView(id)` call (api.js:140-150: these throw on a non-ok
response or a network failure), and of the refresh `fetchProducts` call. -/
structure FetchEnv where
  fetchResult : Except String Page
  featuredCall : Nat → Bool → Except String Unit
  searchCall : Nat → Except String Unit
  viewCall : Nat → Except String Unit
  refetchResult : Except String Page

/-- The component state of `ProductGrid` read and written by `loadProducts`
(ProductGrid.jsx:17-35), with the two session-scoped dedup sets
(`sessionStorage` keys `viewedProducts` and `searchedProducts`). -/
structure GridState where
  products : List Product
  total : Nat
  loading : Bool
  error : Option String
  topFeatured : List Product
  viewed : List Nat
  searched : List Nat
  deriving Repr, DecidableEq

/-- The outcome of a sequence of awaited calls: the first rejection's message,
if any (a sequential `for` loop of awaits stops at its first rejection; a
`Promise.all` rejects with its first rejection). -/
def firstError (rs : List (Except String Unit)) : Option String :=
  rs.findSome? (fun r => match r with | .error e => some e | .ok _ => none)

/-- Embeds one complete run of `loadProducts` (ProductGrid.jsx:80-159) as a
state transition. The body is a single `try` block: any rejected await jumps
to the `catch`, which stores the message in the `error` state
(ProductGrid.jsx:154-155); state setters already executed keep their effect;
the `finally` clears `loading` (ProductGrid.jsx:156-158). Phase order is that
of the source: primary fetch, featured recalculation (home view only),
search-count increments plus refresh fetch (active-filter path only), view
increments. -/
def loadProducts (env : FetchEnv) (searchTerm : String) (f : Filters)
    (locationFilter : String) (sellerIdFilter : Option Int)
    (st : GridState) : GridState :=
  let active := hasActiveFilters searchTerm f locationFilter sellerIdFilter
  let isMainPage := !active
  match env.fetchResult with
  | .error e => { st with error := some e, loading := false }
  | .ok data =>
    let st1 := { st with products := data.items, total := data.total,
                         error := none }
    let st2 :=
      if isMainPage then { st1 with topFeatured := top6 data.items }
      else { st1 with topFeatured := [] }
    let featuredErr :=
      if isMainPage then
        firstError ((recalcMutations data.items).map
          (fun m => env.featuredCall m.1 m.2))
      else none
    match featuredErr with
    | some e => { st2 with error := some e, loading := false }
    | none =>
      let searchStep : GridState × Option String :=
        if active then
          let newIds := newIdsAgainst data.items st.searched
          if newIds.length > 0 then
            match firstError (newIds.map env.searchCall) with
            | some e => (st2, some e)
            | none =>
              let st3 := { st2 with searched := st.searched ++ newIds }
              match env.refetchResult with
              | .error e => (st3, some e)
              | .ok refreshed =>
                ({ st3 with products := refreshed.items }, none)
          else (st2, none)
        else (st2, none)
      match searchStep with
      | (stS, some e) => { stS with error := some e, loading := false }
      | (stS, none) =>
        let newViewIds := newIdsAgainst data.items st.viewed
        if newViewIds.length > 0 then
          match firstError (newViewIds.map env.viewCall) with
          | some e => { stS with error := some e, loading := false }
          | none =>
            { stS with viewed := st.viewed ++ newViewIds, loading := false }
        else { stS with loading := false }

/-- What `ProductGrid` renders for a given state (ProductGrid.jsx:190-204 and
the two return branches): a spinner while loading, an inline error page when
the error state is set, otherwise the listing grid. -/
inductive RenderOutput
  | spinner
  | errorPage (msg : String)
  | grid (products : List Product) (topFeatured : List Product)
  deriving Repr, DecidableEq

/-- The render dispatch of `ProductGrid` (ProductGrid.jsx:190-204). -/
def render (st : GridState) : RenderOutput :=
  if st.loading then .spinner
  else
    match st.error with
    | some m => .errorPage m
    | none => .grid st.products st.topFeatured

/-! ### Response ordering (ProductGrid.jsx:95-97)

Each in-flight `loadProducts` invocation ends its fetch continuation with
`setProducts(data.items); setTotal(data.total); setError(null)` — there is no
sequence number, no comparison with the current filter, and no cleanup
function in the effect (ProductGrid.jsx:79-169), so when several invocations
overlap, their continuations update the rendered state in arrival order. -/

/-- The fetch continuation of one invocation (ProductGrid.jsx:95-97),
applied to whatever state is current when its response arrives. -/
def completeFetch (st : GridState) (data : Page) : GridState :=
  { st with products := data.items, total := data.total, error := none }

/-- The rendered state after a set of overlapping responses, applied in
arrival order: the code has no request-identity guard, so each arriving
response overwrites the products unconditionally. -/
def applyResponsesInArrivalOrder (st : GridState) (arrivals : List Page) :
    GridState :=
  arrivals.foldl completeFetch st

/-! ## Helper lemmas -/

theorem applyAll_nil (p : Product) : applyAll [] p = p := rfl

theorem applyAll_cons (m : Nat × Bool) (ms : List (Nat × Bool)) (p : Product) :
    applyAll (m :: ms) p =
      applyAll ms (if p.id = m.1 then { p with featured := m.2 } else p) := rfl

theorem applyAll_id (ms : List (Nat × Bool)) (p : Product) :
    (applyAll ms p).id = p.id := by
  induction ms generalizing p with
  | nil => rfl
  | cons m t ih =>
    rw [applyAll_cons, ih]
    split <;> rfl

theorem applyMutations_eq_map (store : List Product) (ms : List (Nat × Bool)) :
    applyMutations store ms = store.map (applyAll ms) := by
  induction ms generalizing store with
  | nil =>
    simp only [applyMutations, List.foldl_nil]
    exact (List.map_id' store).symm
  | cons m t ih =>
    show applyMutations (applyMutation store m) t = _
    rw [ih, applyMutation, List.map_map]
    exact List.map_congr_left (fun p _ => rfl)

theorem applyAll_of_not_mem_keys (ms : List (Nat × Bool)) (p : Product)
    (h : p.id ∉ ms.map (fun m => m.1)) : applyAll ms p = p := by
  induction ms with
  | nil => rfl
  | cons m t ih =>
    rw [applyAll_cons, if_neg (by simp at h; exact h.1)]
    exact ih (by simp at h ⊢; exact h.2)

theorem applyAll_of_mem_keys_nodup (ms : List (Nat × Bool)) (p : Product)
    (b : Bool) (hnd : (ms.map (fun m => m.1)).Nodup)
    (hmem : (p.id, b) ∈ ms) : applyAll ms p = { p with featured := b } := by
  induction ms with
  | nil => cases hmem
  | cons m t ih =>
    rw [List.map_cons, List.nodup_cons] at hnd
    rcases List.mem_cons.mp hmem with heq | hmem_t
    · subst heq
      rw [applyAll_cons, if_pos rfl]
      exact applyAll_of_not_mem_keys t _ hnd.1
    · have hkey : p.id ≠ m.1 := by
        intro hk
        exact hnd.1 (by rw [← hk]; exact List.mem_map.mpr ⟨(p.id, b), hmem_t, rfl⟩)
      rw [applyAll_cons, if_neg hkey]
      exact ih hnd.2 hmem_t

theorem sortBySearchesDesc_perm (items : List Product) :
    List.Perm (sortBySearchesDesc items) items :=
  List.mergeSort_perm items _

theorem top6_append_rest6 (items : List Product) :
    top6 items ++ rest6 items = sortBySearchesDesc items :=
  List.take_append_drop 6 _

theorem mem_of_mem_top6 {items : List Product} {p : Product}
    (h : p ∈ top6 items) : p ∈ items :=
  (sortBySearchesDesc_perm items).mem_iff.mp (List.mem_of_mem_take h)

theorem mem_of_mem_rest6 {items : List Product} {p : Product}
    (h : p ∈ rest6 items) : p ∈ items :=
  (sortBySearchesDesc_perm items).mem_iff.mp (List.mem_of_mem_drop h)

theorem sortBySearchesDesc_pairwise (items : List Product) :
    (sortBySearchesDesc items).Pairwise (fun a b => b.searches ≤ a.searches) := by
  have h := @List.sorted_mergeSort Product searchesDescLe
    (fun a b c hab hbc => by
      simp only [searchesDescLe, decide_eq_true_eq] at hab hbc ⊢
      omega)
    (fun a b => by
      simp only [searchesDescLe, Bool.or_eq_true, decide_eq_true_eq]
      omega)
    items
  exact h.imp (fun hab => by
    simpa only [searchesDescLe, decide_eq_true_eq] using hab)

theorem sorted_ids_nodup {items : List Product}
    (hids : (items.map (fun p => p.id)).Nodup) :
    ((sortBySearchesDesc items).map (fun p => p.id)).Nodup :=
  (((sortBySearchesDesc_perm items).map (fun p => p.id)).nodup_iff).mpr hids

theorem eq_of_mem_of_id_eq {items : List Product}
    (hids : (items.map (fun p => p.id)).Nodup) {p q : Product}
    (hp : p ∈ items) (hq : q ∈ items) (h : p.id = q.id) : p = q :=
  List.inj_on_of_nodup_map hids hp hq h

theorem recalcMutations_keys (items : List Product) :
    (recalcMutations items).map (fun m => m.1) =
      ((top6 items).filter (fun p => !p.featured)).map (fun p => p.id) ++
      ((rest6 items).filter (fun p => p.featured)).map (fun p => p.id) := by
  simp [recalcMutations, List.map_append, List.map_map, Function.comp_def]

theorem recalcMutations_keys_subset (items : List Product) :
    ∀ i ∈ (recalcMutations items).map (fun m => m.1),
      i ∈ items.map (fun p => p.id) := by
  intro i hi
  rw [recalcMutations_keys] at hi
  rcases List.mem_append.mp hi with h | h
  · obtain ⟨p, hp, rfl⟩ := List.mem_map.mp h
    exact List.mem_map.mpr ⟨p, mem_of_mem_top6 (List.mem_of_mem_filter hp), rfl⟩
  · obtain ⟨p, hp, rfl⟩ := List.mem_map.mp h
    exact List.mem_map.mpr ⟨p, mem_of_mem_rest6 (List.mem_of_mem_filter hp), rfl⟩

theorem top6_rest6_ids_nodup {items : List Product}
    (hids : (items.map (fun p => p.id)).Nodup) :
    ((top6 items).map (fun p => p.id) ++
      (rest6 items).map (fun p => p.id)).Nodup := by
  rw [← List.map_append, top6_append_rest6]
  exact sorted_ids_nodup hids

theorem recalcMutations_keys_nodup {items : List Product}
    (hids : (items.map (fun p => p.id)).Nodup) :
    ((recalcMutations items).map (fun m => m.1)).Nodup := by
  rw [recalcMutations_keys]
  have hnd := top6_rest6_ids_nodup hids
  rw [List.nodup_append] at hnd ⊢
  obtain ⟨h1, h2, hdisj⟩ := hnd
  refine ⟨?_, ?_, ?_⟩
  · exact (((top6 items).filter_sublist.map (fun p => p.id)).nodup h1)
  · exact (((rest6 items).filter_sublist.map (fun p => p.id)).nodup h2)
  · intro a ha hb
    exact hdisj
      (((top6 items).filter_sublist.map (fun p => p.id)).mem ha)
      (((rest6 items).filter_sublist.map (fun p => p.id)).mem hb)

theorem mem_top6_of_id_mem {items : List Product}
    (hids : (items.map (fun q => q.id)).Nodup) {p : Product} (hp : p ∈ items)
    (hin : p.id ∈ (top6 items).map (fun q => q.id)) : p ∈ top6 items := by
  obtain ⟨q, hq, hqid⟩ := List.mem_map.mp hin
  have hpq : q = p := eq_of_mem_of_id_eq hids (mem_of_mem_top6 hq) hp hqid
  exact hpq ▸ hq

theorem mem_rest6_of_id_not_mem {items : List Product} {p : Product}
    (hp : p ∈ items)
    (hin : p.id ∉ (top6 items).map (fun q => q.id)) : p ∈ rest6 items := by
  have hsp : p ∈ top6 items ++ rest6 items := by
    rw [top6_append_rest6]
    exact (sortBySearchesDesc_perm items).mem_iff.mpr hp
  rcases List.mem_append.mp hsp with h | h
  · exact absurd (List.mem_map.mpr ⟨p, h, rfl⟩) hin
  · exact h

theorem applyAll_recalcMutations {items : List Product}
    (hids : (items.map (fun q => q.id)).Nodup) {p : Product} (hp : p ∈ items) :
    applyAll (recalcMutations items) p =
      { p with featured := decide (p.id ∈ (top6 items).map (fun q => q.id)) } := by
  by_cases hin : p.id ∈ (top6 items).map (fun q => q.id)
  · have hptop : p ∈ top6 items := mem_top6_of_id_mem hids hp hin
    rw [decide_eq_true hin]
    cases hf : p.featured
    · -- not yet featured: the recalculation issues (p.id, true)
      have hmem : (p.id, true) ∈ recalcMutations items := by
        unfold recalcMutations
        exact List.mem_append.mpr (Or.inl
          (List.mem_map.mpr ⟨p, List.mem_filter.mpr ⟨hptop, by simp [hf]⟩, rfl⟩))
      exact applyAll_of_mem_keys_nodup _ _ _ (recalcMutations_keys_nodup hids) hmem
    · -- already featured: no mutation touches p
      have hnotmem : p.id ∉ (recalcMutations items).map (fun m => m.1) := by
        rw [recalcMutations_keys]
        intro hmem
        rcases List.mem_append.mp hmem with h | h
        · obtain ⟨r, hr, hrid⟩ := List.mem_map.mp h
          obtain ⟨hrtop, hrf⟩ := List.mem_filter.mp hr
          have : r = p :=
            eq_of_mem_of_id_eq hids (mem_of_mem_top6 hrtop) hp hrid
          subst this
          simp [hf] at hrf
        · obtain ⟨r, hr, hrid⟩ := List.mem_map.mp h
          obtain ⟨hrrest, _⟩ := List.mem_filter.mp hr
          have : r = p :=
            eq_of_mem_of_id_eq hids (mem_of_mem_rest6 hrrest) hp hrid
          subst this
          have hdisj := top6_rest6_ids_nodup hids
          rw [List.nodup_append] at hdisj
          exact hdisj.2.2 hin (List.mem_map.mpr ⟨r, hrrest, rfl⟩)
      rw [applyAll_of_not_mem_keys _ _ hnotmem]
      obtain ⟨pid, ps, pv, pf⟩ := p
      simp only at hf
      rw [hf]
  · have hprest : p ∈ rest6 items := mem_rest6_of_id_not_mem hp hin
    rw [decide_eq_false hin]
    cases hf : p.featured
    · -- not featured and outside the top 6: no mutation touches p
      have hnotmem : p.id ∉ (recalcMutations items).map (fun m => m.1) := by
        rw [recalcMutations_keys]
        intro hmem
        rcases List.mem_append.mp hmem with h | h
        · obtain ⟨r, hr, hrid⟩ := List.mem_map.mp h
          obtain ⟨hrtop, _⟩ := List.mem_filter.mp hr
          have : r = p :=
            eq_of_mem_of_id_eq hids (mem_of_mem_top6 hrtop) hp hrid
          subst this
          exact hin (List.mem_map.mpr ⟨r, hrtop, rfl⟩)
        · obtain ⟨r, hr, hrid⟩ := List.mem_map.mp h
          obtain ⟨hrrest, hrf⟩ := List.mem_filter.mp hr
          have : r = p :=
            eq_of_mem_of_id_eq hids (mem_of_mem_rest6 hrrest) hp hrid
          subst this
          simp [hf] at hrf
      rw [applyAll_of_not_mem_keys _ _ hnotmem]
      obtain ⟨pid, ps, pv, pf⟩ := p
      simp only at hf
      rw [hf]
    · -- featured but outside the top 6: the recalculation issues (p.id, false)
      have hmem : (p.id, false) ∈ recalcMutations items := by
        unfold recalcMutations
        exact List.mem_append.mpr (Or.inr
          (List.mem_map.mpr ⟨p, List.mem_filter.mpr ⟨hprest, by simp [hf]⟩, rfl⟩))
      exact applyAll_of_mem_keys_nodup _ _ _ (recalcMutations_keys_nodup hids) hmem

theorem store_after_recalc {items : List Product}
    (hids : (items.map (fun q => q.id)).Nodup) :
    applyMutations items (recalcMutations items) =
      items.map (fun p =>
        { p with featured := decide (p.id ∈ (top6 items).map (fun q => q.id)) }) := by
  rw [applyMutations_eq_map]
  exact List.map_congr_left (fun p hp => applyAll_recalcMutations hids hp)

theorem top6_length {items : List Product} (h : 6 ≤ items.length) :
    (top6 items).length = 6 := by
  simp only [top6, List.length_take, sortBySearchesDesc, List.length_mergeSort]
  omega

theorem count_featured_after_recalc {items : List Product}
    (hids : (items.map (fun q => q.id)).Nodup) (hlen : 6 ≤ items.length) :
    (applyMutations items (recalcMutations items)).countP
      (fun p => p.featured) = 6 := by
  rw [store_after_recalc hids, List.countP_map]
  have hperm := (sortBySearchesDesc_perm items).countP_eq
    ((fun p : Product => p.featured) ∘ (fun p : Product =>
      { p with featured := decide (p.id ∈ (top6 items).map (fun q => q.id)) }))
  rw [← hperm, ← top6_append_rest6, List.countP_append]
  have hdisj := top6_rest6_ids_nodup hids
  rw [List.nodup_append] at hdisj
  have h1 : (top6 items).countP ((fun p : Product => p.featured) ∘ (fun p : Product =>
      { p with featured := decide (p.id ∈ (top6 items).map (fun q => q.id)) })) =
      (top6 items).length := by
    rw [List.countP_eq_length]
    intro a ha
    simp only [Function.comp_apply, decide_eq_true_eq]
    exact List.mem_map.mpr ⟨a, ha, rfl⟩
  have h2 : (rest6 items).countP ((fun p : Product => p.featured) ∘ (fun p : Product =>
      { p with featured := decide (p.id ∈ (top6 items).map (fun q => q.id)) })) = 0 := by
    rw [List.countP_eq_zero]
    intro a ha
    simp only [Function.comp_apply, decide_eq_true_eq]
    intro hmem
    exact hdisj.2.2 hmem (List.mem_map.mpr ⟨a, ha, rfl⟩)
  rw [h1, h2, top6_length hlen]

theorem top6_searches_gt_rest6 {items : List Product}
    (hdistinct : items.Pairwise (fun a b => a.searches ≠ b.searches))
    {p q : Product} (hp : p ∈ top6 items) (hq : q ∈ rest6 items) :
    q.searches < p.searches := by
  have hpair := sortBySearchesDesc_pairwise items
  rw [← top6_append_rest6] at hpair
  have hle : q.searches ≤ p.searches := (List.pairwise_append.mp hpair).2.2 p hp q hq
  have hdst : (sortBySearchesDesc items).Pairwise
      (fun a b => a.searches ≠ b.searches) :=
    ((sortBySearchesDesc_perm items).pairwise_iff
      (fun h => Ne.symm h)).mpr hdistinct
  rw [← top6_append_rest6] at hdst
  have hne : p.searches ≠ q.searches := (List.pairwise_append.mp hdst).2.2 p hp q hq
  omega

/-! ## Claim theorems -/

/-- C1: For a home-view fetch (`featured_only` true, no active filter
dimension) returning a page of at least 6 items with pairwise distinct search
counts and unique ids, the recalculation (which runs exactly when
`featured_only` holds) issues a `featured=true` mutation for exactly those
top-6-by-`searches` items (stable descending sort) whose flag is not already
true, a `featured=false` mutation for exactly those items outside the top 6
whose flag is true, and after the mutations are applied to the page exactly 6
items are featured and every featured item has strictly more searches than
every non-featured one. -/
theorem c1_featured_recalculator
    (searchTerm : String) (f : Filters) (locF : String) (sellerF : Option Int)
    (items : List Product)
    (hmain : hasActiveFilters searchTerm f locF sellerF = false)
    (hlen : 6 ≤ items.length)
    (hdistinct : items.Pairwise (fun a b => a.searches ≠ b.searches))
    (hids : (items.map (fun p => p.id)).Nodup) :
    gridMutations (featuredOnly searchTerm f locF sellerF) items =
      recalcMutations items ∧
    (∀ i : Nat, ((i, true) ∈ recalcMutations items ↔
      ∃ p, p ∈ top6 items ∧ p.featured = false ∧ p.id = i)) ∧
    (∀ i : Nat, ((i, false) ∈ recalcMutations items ↔
      ∃ p, p ∈ rest6 items ∧ p.featured = true ∧ p.id = i)) ∧
    ((applyMutations items (recalcMutations items)).countP
      (fun p => p.featured) = 6) ∧
    (∀ p ∈ applyMutations items (recalcMutations items),
      ∀ q ∈ applyMutations items (recalcMutations items),
        p.featured = true → q.featured = false → q.searches < p.searches) := by
  refine ⟨?_, ?_, ?_, ?_, ?_⟩
  · simp [gridMutations, featuredOnly, hmain]
  · intro i
    constructor
    · intro h
      rcases List.mem_append.mp h with h | h
      · obtain ⟨p, hpf, heq⟩ := List.mem_map.mp h
        obtain ⟨hptop, hpneg⟩ := List.mem_filter.mp hpf
        obtain ⟨h1, _⟩ := Prod.mk.injEq _ _ _ _ ▸ heq
        exact ⟨p, hptop, by simpa using hpneg, h1⟩
      · obtain ⟨p, _, heq⟩ := List.mem_map.mp h
        exact absurd (congrArg Prod.snd heq) (by simp)
    · rintro ⟨p, hptop, hpf, rfl⟩
      exact List.mem_append.mpr (Or.inl
        (List.mem_map.mpr ⟨p, List.mem_filter.mpr ⟨hptop, by simp [hpf]⟩, rfl⟩))
  · intro i
    constructor
    · intro h
      rcases List.mem_append.mp h with h | h
      · obtain ⟨p, _, heq⟩ := List.mem_map.mp h
        exact absurd (congrArg Prod.snd heq) (by simp)
      · obtain ⟨p, hpf, heq⟩ := List.mem_map.mp h
        obtain ⟨hprest, hpyes⟩ := List.mem_filter.mp hpf
        obtain ⟨h1, _⟩ := Prod.mk.injEq _ _ _ _ ▸ heq
        exact ⟨p, hprest, by simpa using hpyes, h1⟩
    · rintro ⟨p, hprest, hpf, rfl⟩
      exact List.mem_append.mpr (Or.inr
        (List.mem_map.mpr ⟨p, List.mem_filter.mpr ⟨hprest, by simp [hpf]⟩, rfl⟩))
  · exact count_featured_after_recalc hids hlen
  · intro pp hpp qq hqq hpf hqf
    rw [store_after_recalc hids] at hpp hqq
    obtain ⟨p, hp, rfl⟩ := List.mem_map.mp hpp
    obtain ⟨q, hq, rfl⟩ := List.mem_map.mp hqq
    have hpin : p.id ∈ (top6 items).map (fun r => r.id) := of_decide_eq_true hpf
    have hqout : q.id ∉ (top6 items).map (fun r => r.id) := of_decide_eq_false hqf
    show q.searches < p.searches
    exact top6_searches_gt_rest6 hdistinct
      (mem_top6_of_id_mem hids hp hpin)
      (mem_rest6_of_id_not_mem hq hqout)

/-- Witness for C1: a concrete home-view page of 7 items with distinct search
counts satisfies the hypotheses, and the recalculation leaves exactly 6
featured. -/
theorem c1_featured_recalculator_witness :
    (hasActiveFilters "" initialFilters "" none = false ∧
     6 ≤ ([⟨1, 10, 0, false⟩, ⟨2, 9, 0, false⟩, ⟨3, 8, 0, true⟩,
           ⟨4, 7, 0, false⟩, ⟨5, 6, 0, false⟩, ⟨6, 5, 0, false⟩,
           ⟨7, 4, 0, true⟩] : List Product).length) ∧
    (applyMutations
      [⟨1, 10, 0, false⟩, ⟨2, 9, 0, false⟩, ⟨3, 8, 0, true⟩,
       ⟨4, 7, 0, false⟩, ⟨5, 6, 0, false⟩, ⟨6, 5, 0, false⟩, ⟨7, 4, 0, true⟩]
      (recalcMutations
        [⟨1, 10, 0, false⟩, ⟨2, 9, 0, false⟩, ⟨3, 8, 0, true⟩,
         ⟨4, 7, 0, false⟩, ⟨5, 6, 0, false⟩, ⟨6, 5, 0, false⟩,
         ⟨7, 4, 0, true⟩])).countP (fun p => p.featured) = 6 :=
  ⟨⟨by decide, by decide⟩,
   (c1_featured_recalculator "" initialFilters "" none
      [⟨1, 10, 0, false⟩, ⟨2, 9, 0, false⟩, ⟨3, 8, 0, true⟩,
       ⟨4, 7, 0, false⟩, ⟨5, 6, 0, false⟩, ⟨6, 5, 0, false⟩, ⟨7, 4, 0, true⟩]
      (by decide) (by decide) (by decide) (by decide)).2.2.2.1⟩

/-- C10: The home-view recalculation only mutates listings whose ids occur in
the just-fetched page: every listing of the store whose id is not on the page
keeps its record (in particular its `featured` flag) unchanged, and
consequently the store as a whole can retain more than 6 featured listings
after a recalculation. -/
theorem c10_recalc_frame :
    (∀ (store page : List Product) (i : Nat) (hi : i < store.length),
        store[i].id ∉ page.map (fun p => p.id) →
        (applyMutations store (recalcMutations page))[i]? = some store[i]) ∧
    (∃ store page : List Product,
        6 < (applyMutations store (recalcMutations page)).countP
              (fun p => p.featured)) := by
  constructor
  · intro store page i hi hout
    rw [applyMutations_eq_map, List.getElem?_map, List.getElem?_eq_getElem hi]
    exact congrArg some (applyAll_of_not_mem_keys _ _
      (fun hmem => hout (recalcMutations_keys_subset page _ hmem)))
  · refine ⟨[⟨1, 0, 0, true⟩, ⟨2, 0, 0, true⟩, ⟨3, 0, 0, true⟩, ⟨4, 0, 0, true⟩,
             ⟨5, 0, 0, true⟩, ⟨6, 0, 0, true⟩, ⟨7, 0, 0, true⟩], [], ?_⟩
    have h : recalcMutations [] = [] := by
      simp [recalcMutations, top6, rest6, sortBySearchesDesc]
    rw [h]
    decide

/-- Witness for C10: a store listing with id 99 absent from a one-item page
is untouched by the recalculation of that page. -/
theorem c10_recalc_frame_witness :
    ((⟨99, 0, 0, true⟩ : Product).id ∉
        ([⟨1, 5, 0, true⟩] : List Product).map (fun p => p.id)) ∧
    (applyMutations [⟨99, 0, 0, true⟩]
        (recalcMutations [⟨1, 5, 0, true⟩]))[0]? = some ⟨99, 0, 0, true⟩ :=
  ⟨by decide,
   c10_recalc_frame.1 [⟨99, 0, 0, true⟩] [⟨1, 5, 0, true⟩] 0
     (by decide) (by decide)⟩

/-- C3 counterexample: with every other dimension empty and the seller-id
filter set to the number 0 — a set dimension, and one that `fetchProducts`
would actually send as `seller_id=0` (api.js:29 only skips `undefined`,
`null` and `''`) — the code still computes `featured_only = true`, because
`hasActiveFilters` tests the seller id by JS truthiness and `!!0` is false.
So `featured_only` is not equivalent to "no filter dimension is active". -/
theorem c3_counterexample :
    ¬ (featuredOnly "" initialFilters "" (some 0) = true ↔
        ¬ specAnyDimensionActive "" initialFilters "" (some 0)) ∧
    (buildOriginalParams "" initialFilters "" (some 0) true 1 15).seller_id =
      some 0 := by
  constructor
  · decide
  · rfl

/-- C3 (amended): for every filter state whose seller-id filter, if set, is
nonzero, `featured_only` is true iff no filter dimension is active; the
equivalence fails only at a seller id of 0, which JS truthiness treats as
unset. `featured_only` is computed as the negation of `hasActiveFilters`,
never stored separately. -/
theorem c3_featured_only_iff_no_active_dimension
    (searchTerm : String) (f : Filters) (locationFilter : String)
    (sellerIdFilter : Option Int)
    (hseller : ∀ n : Int, sellerIdFilter = some n → n ≠ 0) :
    featuredOnly searchTerm f locationFilter sellerIdFilter = true ↔
      ¬ specAnyDimensionActive searchTerm f locationFilter sellerIdFilter := by
  unfold featuredOnly hasActiveFilters specAnyDimensionActive truthyStr truthyOptInt
  cases sellerIdFilter with
  | none =>
    simp only [not_or]
    constructor
    · intro h
      simp only [Bool.not_eq_true', Bool.or_eq_false_iff, decide_eq_false_iff_not,
        not_not] at h
      simp [h.1.1.1.1.1.1.1, h.1.1.1.1.1.1.2, h.1.1.1.1.1.2, h.1.1.1.1.2,
        h.1.1.1.2, h.1.1.2, h.1.2, h.2]
    · intro h
      simp [h.1, h.2.1, h.2.2.1, h.2.2.2.1, h.2.2.2.2.1, h.2.2.2.2.2.1,
        h.2.2.2.2.2.2.1, h.2.2.2.2.2.2.2.1]
  | some n =>
    have hn : n ≠ 0 := hseller n rfl
    simp [not_or, hn]

/-- Witness for C3 (amended): the all-empty filter state has no active
dimension and `featured_only` true. -/
theorem c3_featured_only_witness :
    (∀ n : Int, (none : Option Int) = some n → n ≠ 0) ∧
    (featuredOnly "" initialFilters "" none = true ↔
      ¬ specAnyDimensionActive "" initialFilters "" none) :=
  ⟨(fun _ h => nomatch h),
   c3_featured_only_iff_no_active_dimension "" initialFilters "" none
     (fun _ h => nomatch h)⟩

/-- C4: Running the view-increment flow twice in one session issues exactly
one `incrementProductView` call for an id that is on the first page and not
yet in the session's viewed set (assuming unique page ids and successful
calls, under which the id is recorded after the first run); moreover a call
is only ever issued for ids not yet in the viewed set, and every id called is
in the updated set afterwards. -/
theorem c4_view_increment_dedup
    (items1 items2 : List Product) (viewed : List Nat) (i : Nat)
    (hmem : i ∈ items1.map (fun p => p.id))
    (hnew : i ∉ viewed)
    (hnd : (items1.map (fun p => p.id)).Nodup) :
    (((viewIncrementRun items1 viewed).1 ++
      (viewIncrementRun items2 (viewIncrementRun items1 viewed).2).1).count i
        = 1) ∧
    (∀ (items : List Product) (v : List Nat) (j : Nat),
        j ∈ (viewIncrementRun items v).1 → j ∉ v) ∧
    (∀ (items : List Product) (v : List Nat) (j : Nat),
        j ∈ (viewIncrementRun items v).1 → j ∈ (viewIncrementRun items v).2) := by
  have hcalls_mem : ∀ (items : List Product) (v : List Nat) (j : Nat),
      j ∈ (viewIncrementRun items v).1 → j ∉ v := by
    intro items v j hj
    have := (List.mem_filter.mp hj).2
    simpa using this
  have hcalls_upd : ∀ (items : List Product) (v : List Nat) (j : Nat),
      j ∈ (viewIncrementRun items v).1 → j ∈ (viewIncrementRun items v).2 := by
    intro items v j hj
    show j ∈ (if (newIdsAgainst items v).length > 0 then
        v ++ newIdsAgainst items v else v)
    rw [if_pos (show (newIdsAgainst items v).length > 0 from
      List.length_pos.mpr (List.ne_nil_of_mem hj))]
    exact List.mem_append_right v hj
  refine ⟨?_, hcalls_mem, hcalls_upd⟩
  have hi1 : i ∈ (viewIncrementRun items1 viewed).1 := by
    apply List.mem_filter.mpr
    exact ⟨hmem, by simpa using hnew⟩
  have hcount1 : (viewIncrementRun items1 viewed).1.count i = 1 :=
    List.count_eq_one_of_mem (hnd.filter _) hi1
  have hi2 : i ∈ (viewIncrementRun items1 viewed).2 :=
    hcalls_upd items1 viewed i hi1
  have hcount2 :
      (viewIncrementRun items2 (viewIncrementRun items1 viewed).2).1.count i
        = 0 := by
    apply List.count_eq_zero.mpr
    intro hc
    exact absurd hi2 (hcalls_mem _ _ _ hc)
  rw [List.count_append, hcount1, hcount2]

/-- Witness for C4: a one-item page viewed twice in a fresh session yields a
single increment call for its id. -/
theorem c4_view_increment_dedup_witness :
    (1 ∈ ([⟨1, 0, 0, false⟩] : List Product).map (fun p => p.id) ∧
     1 ∉ ([] : List Nat)) ∧
    (((viewIncrementRun [⟨1, 0, 0, false⟩] []).1 ++
      (viewIncrementRun [⟨1, 0, 0, false⟩]
        (viewIncrementRun [⟨1, 0, 0, false⟩] []).2).1).count 1 = 1) :=
  ⟨⟨by decide, by decide⟩,
   (c4_view_increment_dedup [⟨1, 0, 0, false⟩] [⟨1, 0, 0, false⟩] [] 1
     (by decide) (by decide) (by decide)).1⟩

theorem recentUpdate_idem (t : String) (l : List String) :
    recentUpdate t (recentUpdate t l) = recentUpdate t l := by
  unfold recentUpdate
  have h5 : ∀ (x : List String), (t :: x).take 5 = t :: x.take 4 := fun x => rfl
  rw [h5, h5]
  have hfilter :
      (t :: (l.filter (fun s => s ≠ t)).take 4).filter (fun s => s ≠ t) =
        (l.filter (fun s => s ≠ t)).take 4 := by
    rw [List.filter_cons_of_neg (by simp)]
    apply List.filter_eq_self.mpr
    intro a ha
    have ha2 : a ∈ l.filter (fun s => s ≠ t) := List.mem_of_mem_take ha
    exact (List.mem_filter.mp ha2).2
  rw [hfilter]
  simp [List.take_take]

/-- C6: Selecting a suggestion of type location or seller clears the free-text
term (both the search term and the original term become empty, so any listing
query built from the resulting state carries an empty term; the locality, or
the number-coerced seller id, is installed as the filter), and the selection
is idempotent: selecting the same suggestion twice leaves exactly the state
of selecting it once. -/
theorem c6_suggestion_selection
    (s : Suggestion) (h : HeaderState) (a : AppSearchState)
    (htype : s.type = "ubicación" ∨ s.type = "vendedor") :
    ((selectSuggestion s h a).2.searchTerm = "" ∧
     (selectSuggestion s h a).2.originalSearchTerm = "") ∧
    (selectSuggestion s (selectSuggestion s h a).1 (selectSuggestion s h a).2 =
      selectSuggestion s h a) ∧
    (s.type = "ubicación" →
      (selectSuggestion s h a).2.locationFilter = s.text ∧
      (selectSuggestion s h a).2.sellerIdFilter = none) ∧
    (s.type = "vendedor" →
      (selectSuggestion s h a).2.sellerIdFilter = s.seller_id ∧
      (selectSuggestion s h a).2.locationFilter = "") ∧
    (∀ (f : Filters) (m : Bool) (page pageSize : Nat),
      (buildOriginalParams (selectSuggestion s h a).2.searchTerm f
        (selectSuggestion s h a).2.locationFilter
        (selectSuggestion s h a).2.sellerIdFilter m page pageSize).searchTerm
          = "") := by
  rcases htype with ht | ht
  · simp [selectSuggestion, handleSearchSubmit, handleSearch, ht,
      buildOriginalParams, recentUpdate_idem]
  · simp [selectSuggestion, handleSearchSubmit, handleSearch, ht,
      buildOriginalParams, recentUpdate_idem]

/-- Witness for C6: selecting the location suggestion "Córdoba" from a state
with the term "bici" clears the term. -/
theorem c6_suggestion_selection_witness :
    ((⟨"Córdoba", "ubicación", none⟩ : Suggestion).type = "ubicación" ∨
     (⟨"Córdoba", "ubicación", none⟩ : Suggestion).type = "vendedor") ∧
    (selectSuggestion ⟨"Córdoba", "ubicación", none⟩
      ⟨"bici", [], true, ""⟩
      ⟨"bici", "bici", "", none, "", none⟩).2.searchTerm = "" :=
  ⟨Or.inl rfl,
   ((c6_suggestion_selection ⟨"Córdoba", "ubicación", none⟩
      ⟨"bici", [], true, ""⟩ ⟨"bici", "bici", "", none, "", none⟩
      (Or.inl rfl)).1).1⟩

/-- C7 counterexample: with current term "Bici", pending suggestion "bici"
and no returned suggestions, the code displays the "did you mean" entry
(`liveSuggestion !== searchTerm` is a case-sensitive comparison,
Header.jsx:275) even though "bici" does not differ case-insensitively from
"Bici" — the claimed display condition is violated. -/
theorem c7_counterexample :
    showSpellingSuggestion (some "bici") "Bici" [] = true ∧
    ¬ specShowSpelling "bici" "Bici" [] := by
  constructor
  · rfl
  · decide

/-- C7 (amended): the spelling suggestion is displayed iff it is non-empty,
differs exactly (case-SENSITIVELY) from the current term, and no returned
suggestion has a non-empty text equal to it case-insensitively. Only the
comparison against the suggestion list is case-insensitive; the comparison
against the term is exact. -/
theorem c7_spelling_display_iff
    (ls searchTerm : String) (suggestions : List Suggestion) :
    showSpellingSuggestion (some ls) searchTerm suggestions = true ↔
      (ls ≠ "" ∧ ls ≠ searchTerm ∧
       ∀ s ∈ suggestions,
         ¬(s.text ≠ "" ∧ jsToLowerCase s.text = jsToLowerCase ls)) := by
  simp only [showSpellingSuggestion, Bool.and_eq_true, Bool.not_eq_true',
    List.any_eq_false, decide_eq_true_eq, and_assoc, not_and, ne_eq]

/-- C9 counterexample: a failed suggestion fetch (query of length ≥ 2) leaves
the previously shown suggestion list and spelling suggestion in place — the
panel does not "show nothing" afterwards unless it already showed nothing. -/
theorem c9_counterexample :
    (fetchSuggestionsStep "bic"
      { suggestions := [⟨"bicicleta", "producto", none⟩],
        liveSuggestion := some "bicicleta",
        loadingSuggestions := true, log := [] }
      (.error "Error fetching suggestions:")).suggestions =
      [⟨"bicicleta", "producto", none⟩] ∧
    (fetchSuggestionsStep "bic"
      { suggestions := [⟨"bicicleta", "producto", none⟩],
        liveSuggestion := some "bicicleta",
        loadingSuggestions := true, log := [] }
      (.error "Error fetching suggestions:")).liveSuggestion =
      some "bicicleta" :=
  ⟨rfl, rfl⟩

/-- C9 (amended): a failed suggestion fetch for a query of length ≥ 2 is
silent — no error state exists for it, only a `console.error` log entry is
appended and the loading flag cleared — and it leaves the suggestion list and
the spelling suggestion unchanged, so the panel shows nothing afterwards
exactly when it showed nothing before. -/
theorem c9_suggestion_fetch_failure_is_silent
    (query : String) (st : SuggestState) (e : String)
    (hq : 2 ≤ query.length) :
    (fetchSuggestionsStep query st (.error e)).suggestions = st.suggestions ∧
    (fetchSuggestionsStep query st (.error e)).liveSuggestion =
      st.liveSuggestion ∧
    (fetchSuggestionsStep query st (.error e)).loadingSuggestions = false ∧
    (fetchSuggestionsStep query st (.error e)).log = st.log ++ [e] := by
  unfold fetchSuggestionsStep
  rw [if_neg (by omega)]
  exact ⟨rfl, rfl, rfl, rfl⟩

/-- Witness for C9 (amended): a concrete failed fetch for "bi" only logs. -/
theorem c9_suggestion_fetch_failure_witness :
    2 ≤ ("bi" : String).length ∧
    (fetchSuggestionsStep "bi" ⟨[], none, true, []⟩
      (.error "network")).log = [] ++ ["network"] :=
  ⟨by decide,
   (c9_suggestion_fetch_failure_is_silent "bi" ⟨[], none, true, []⟩
     "network" (by decide)).2.2.2⟩

/-- C2 at the failing schedule: filter change A (response `{items:[product 1]}`)
is issued, then filter change B (response `{items:[product 2]}`); B's response
arrives first and A's second. Each continuation runs
`setProducts(data.items)` with no request-identity check (ProductGrid.jsx:95),
so the final rendered products are A's — the stale response overwrites the
newer one, contradicting the required ordering guarantee. -/
theorem c2_stale_response_overwrites_newer :
    (applyResponsesInArrivalOrder
      { products := [], total := 0, loading := true, error := none,
        topFeatured := [], viewed := [], searched := [] }
      [{ items := [⟨2, 0, 0, false⟩], total := 1 },
       { items := [⟨1, 0, 0, false⟩], total := 1 }]).products =
      [⟨1, 0, 0, false⟩] ∧
    ([⟨1, 0, 0, false⟩] : List Product) ≠ [⟨2, 0, 0, false⟩] := by
  exact ⟨rfl, by decide⟩

/-- C5 at the failing input: with a seller-id filter of 7 (and an empty term),
the primary fetch carries `seller_id=7`, but the refresh fetch issued after
the search-count increments carries no `seller_id` at all — it is a different
resolved filter, not a re-fetch of the same page; likewise a location-click
filter "Córdoba" is present in the primary fetch but dropped by the refresh. -/
theorem c5_refetch_differs_from_original :
    ((buildOriginalParams "" initialFilters "" (some 7)
        (featuredOnly "" initialFilters "" (some 7)) 1 15).seller_id =
      some 7) ∧
    ((buildRefetchParams "" initialFilters
        (featuredOnly "" initialFilters "" (some 7)) 1 15).seller_id = none) ∧
    (buildRefetchParams "" initialFilters
        (featuredOnly "" initialFilters "" (some 7)) 1 15 ≠
      buildOriginalParams "" initialFilters "" (some 7)
        (featuredOnly "" initialFilters "" (some 7)) 1 15) ∧
    ((buildOriginalParams "" initialFilters "Córdoba" none
        (featuredOnly "" initialFilters "Córdoba" none) 1 15).location =
      "Córdoba") ∧
    ((buildRefetchParams "" initialFilters
        (featuredOnly "" initialFilters "Córdoba" none) 1 15).location = "") :=
  ⟨rfl, rfl, by decide, rfl, rfl⟩

/-- C8 counterexample: on the active-filter path, a failing
`incrementProductSearch` call (api.js:146-149 throws on a non-ok response)
is caught by the page-level handler, which stores the message in the error
state — the component then renders the inline error page instead of the
listings, so the failure is neither non-fatal to the listing render nor
unreported to the user. -/
theorem c8_counterexample :
    render (loadProducts
      { fetchResult := .ok { items := [⟨1, 0, 0, false⟩], total := 1 },
        featuredCall := fun _ _ => .ok (),
        searchCall := fun _ => .error "Error al incrementar búsquedas",
        viewCall := fun _ => .ok (),
        refetchResult := .ok { items := [], total := 0 } }
      "bici" initialFilters "" none
      { products := [], total := 0, loading := true, error := none,
        topFeatured := [], viewed := [], searched := [] }) =
      .errorPage "Error al incrementar búsquedas" ∧
    (loadProducts
      { fetchResult := .ok { items := [⟨1, 0, 0, false⟩], total := 1 },
        featuredCall := fun _ _ => .ok (),
        searchCall := fun _ => .error "Error al incrementar búsquedas",
        viewCall := fun _ => .ok (),
        refetchResult := .ok { items := [], total := 0 } }
      "bici" initialFilters "" none
      { products := [], total := 0, loading := true, error := none,
        topFeatured := [], viewed := [], searched := [] }).error =
      some "Error al incrementar búsquedas" :=
  ⟨rfl, rfl⟩

/-- C8 (amended): counter-increment and featured-mutation failures inside the
load flow are caught by the page-level handler and stored in the error state,
so the listing area renders the inline error message instead of the page —
they are fatal to the listing render and visible to the user (only a non-ok
HTTP response to the featured mutation goes unnoticed, since `updateFeatured`
never checks `response.ok`). Concretely, on the home view: a rejected
featured mutation renders the error page with its message, and — when all
featured mutations resolve — a rejected view increment for a newly seen id
renders the error page with its message. -/
theorem c8_failures_surface_error_page
    (env : FetchEnv) (st : GridState) (searchTerm : String) (f : Filters)
    (locF : String) (sellerF : Option Int) (data : Page)
    (hmain : hasActiveFilters searchTerm f locF sellerF = false)
    (hfetch : env.fetchResult = .ok data) :
    (∀ e, firstError ((recalcMutations data.items).map
        (fun m => env.featuredCall m.1 m.2)) = some e →
      render (loadProducts env searchTerm f locF sellerF st) = .errorPage e) ∧
    (∀ e, firstError ((recalcMutations data.items).map
        (fun m => env.featuredCall m.1 m.2)) = none →
      0 < (newIdsAgainst data.items st.viewed).length →
      firstError ((newIdsAgainst data.items st.viewed).map env.viewCall) =
        some e →
      render (loadProducts env searchTerm f locF sellerF st) = .errorPage e) := by
  constructor
  · intro e hfe
    simp only [loadProducts, hfetch, hmain, Bool.not_false, if_true, hfe]
    simp [render]
  · intro e hfe hlen hve
    simp only [loadProducts, hfetch, hmain, Bool.not_false, if_true, hfe,
      Bool.false_eq_true, if_false, hve]
    rw [if_pos hlen]
    simp [render, hve]

/-- Witness for C8 (amended): a concrete home-view run in which the single
view increment rejects renders the error page with the rejection message. -/
theorem c8_failures_surface_error_page_witness :
    (hasActiveFilters "" initialFilters "" none = false) ∧
    render (loadProducts
      { fetchResult := .ok { items := [⟨1, 5, 0, true⟩], total := 1 },
        featuredCall := fun _ _ => .ok (),
        searchCall := fun _ => .ok (),
        viewCall := fun _ => .error "Error al incrementar vistas",
        refetchResult := .ok { items := [], total := 0 } }
      "" initialFilters "" none
      { products := [], total := 0, loading := true, error := none,
        topFeatured := [], viewed := [], searched := [] }) =
      .errorPage "Error al incrementar vistas" :=
  ⟨by decide,
   (c8_failures_surface_error_page _ _ "" initialFilters "" none
      { items := [⟨1, 5, 0, true⟩], total := 1 } (by decide) rfl).2
     "Error al incrementar vistas"
     (by simp [recalcMutations, top6, rest6, sortBySearchesDesc, firstError])
     (by decide)
     rfl⟩

end VentaDeGarage
